import Mathlib

/-!
Shallow embedding of the SnowMigrate migration orchestration core
(src/snowmigrate/models/migration.py and
src/snowmigrate/services/migration_engine.py) and proofs about it.

Conventions of the embedding:
* Python `datetime` timestamps are abstract integer clock readings.
* Python `float` arithmetic is modelled over `Rat`.
* A JSON line read from the child process is modelled by `LineDecode`:
  `malformed` for a line `json.loads` rejects, `nonObject` for a line that
  is valid JSON but not a JSON object (on which `.get` raises
  `AttributeError`), and `object d` for a JSON object projected onto the
  keys the engine reads (absent keys are `none`, matching `dict.get`).
* The engine's mutable fields (`_migrations`, `_processes`) become an
  explicit `EngineState` threaded through the operations; signals sent to
  the child process become an explicit result list.
-/

namespace SnowMigrate

/-- MigrationStatus enum from models/migration.py. -/
inductive MigrationStatus where
  | queued
  | running
  | paused
  | completed
  | failed
  | cancelled
deriving DecidableEq

/-- TableSelection from models/migration.py. -/
structure TableSelection where
  schema_name : String
  table_name : String
  row_count : Option Int := none
  size_bytes : Option Int := none
deriving DecidableEq

/-- TableSelection.full_name property. -/
def TableSelection.full_name (t : TableSelection) : String :=
  t.schema_name ++ "." ++ t.table_name

/-- MigrationProgress from models/migration.py; counters are Python ints,
floats are modelled as rationals. -/
structure MigrationProgress where
  total_tables : Int := 0
  completed_tables : Int := 0
  current_table : Option String := none
  current_table_progress : Rat := 0
  total_rows : Int := 0
  migrated_rows : Int := 0
  rows_per_second : Rat := 0
  eta_seconds : Option Int := none
deriving DecidableEq

/-- MigrationProgress.percentage property: the code branches on
`total_rows == 0`, then on `total_tables == 0`. -/
def MigrationProgress.percentage (p : MigrationProgress) : Rat :=
  if p.total_rows = 0 then
    if p.total_tables = 0 then 0
    else (p.completed_tables : Rat) / (p.total_tables : Rat) * 100
  else (p.migrated_rows : Rat) / (p.total_rows : Rat) * 100

/-- The spec's wording of the percentage formula, for comparison with the
code: rows formula when `total_rows > 0`, table fallback when
`total_tables > 0`, else 0. -/
def percentage_spec (p : MigrationProgress) : Rat :=
  if p.total_rows > 0 then (p.migrated_rows : Rat) / (p.total_rows : Rat) * 100
  else if p.total_tables > 0 then
    (p.completed_tables : Rat) / (p.total_tables : Rat) * 100
  else 0

/-- Migration job record from models/migration.py. Timestamps are abstract
integer clock readings. -/
structure Migration where
  id : String
  source_connection_id : String
  target_connection_id : String
  staging_area_id : String
  tables : List TableSelection
  target_schema : Option String := none
  status : MigrationStatus := MigrationStatus.queued
  progress : MigrationProgress := {}
  started_at : Option Int := none
  completed_at : Option Int := none
  error : Option String := none
  cli_process_id : Option Int := none
deriving DecidableEq

/-- MigrationConfig from models/migration.py (the fields create_migration
reads). -/
structure MigrationConfig where
  source_connection_id : String
  target_connection_id : String
  staging_area_id : String
  tables : List TableSelection
  target_schema : Option String := none
deriving DecidableEq

/-- A JSON object from one protocol line, projected onto the keys the
engine reads; a `none` field means the key is absent from the object. -/
structure ProtoData where
  type : Option String := none
  table : Option String := none
  rows_migrated : Option Int := none
  total_rows : Option Int := none
  percentage : Option Rat := none
  message : Option String := none
deriving DecidableEq

/-- Outcome of `json.loads` on one stream line. -/
inductive LineDecode where
  | malformed
  | nonObject
  | object (d : ProtoData)
deriving DecidableEq

/-- Python `int()` truncation toward zero, on rationals. -/
def truncInt (q : Rat) : Int := if 0 ≤ q then ⌊q⌋ else ⌈q⌉

/-- The event dispatch part of MigrationEngine._parse_progress (the
`msg_type` if/elif chain). `data.get("type", "")` is `d.type.getD ""`. -/
def apply_event (d : ProtoData) (p : MigrationProgress) : MigrationProgress :=
  let msg_type := d.type.getD ""
  if msg_type = "progress" then
    { p with current_table := d.table,
             migrated_rows := d.rows_migrated.getD p.migrated_rows,
             total_rows := d.total_rows.getD p.total_rows,
             current_table_progress := d.percentage.getD 0 }
  else if msg_type = "table_complete" then
    { p with completed_tables := p.completed_tables + 1, current_table := none }
  else if msg_type = "complete" then
    { p with completed_tables := p.total_tables, migrated_rows := p.total_rows }
  else p

/-- The throughput/ETA tail of MigrationEngine._parse_progress. -/
def update_rate (now : Int) (started_at : Option Int) (p : MigrationProgress) :
    MigrationProgress :=
  match started_at with
  | none => p
  | some started =>
    if 0 < p.migrated_rows then
      let elapsed : Rat := ((now - started : Int) : Rat)
      if 0 < elapsed then
        let p1 := { p with rows_per_second := (p.migrated_rows : Rat) / elapsed }
        let remaining_rows : Int := p.total_rows - p.migrated_rows
        let eta := truncInt ((remaining_rows : Rat) / p1.rows_per_second)
        if 0 < p1.rows_per_second then { p1 with eta_seconds := some eta }
        else p1
      else p
    else p

/-- MigrationEngine._parse_progress: copy the job's snapshot, apply the
event, then update rate/ETA. -/
def parse_progress (now : Int) (data : ProtoData) (m : Migration) :
    MigrationProgress :=
  update_rate now m.started_at (apply_event data m.progress)

/-- SourceConnection from models/connection.py (fields the engine reads;
`type` carries the SourceType enum value string). -/
structure SourceConnection where
  id : String
  name : String
  type : String
  host : String
  port : Int
  database : String
  username : String
  password : String
deriving DecidableEq

/-- SnowflakeConnection from models/connection.py (fields the engine
reads). -/
structure SnowflakeConnection where
  id : String
  name : String
  account : String
  warehouse : String
  database : String
  schema_name : String
  username : String
  password : String
deriving DecidableEq

/-- Generic association-list lookup standing in for Python dict `.get`. -/
def alookup {α : Type} : List (String × α) → String → Option α
  | [], _ => none
  | (k, v) :: rest, key => if k = key then some v else alookup rest key

/-- Replace the value stored at an existing key (no-op if absent); this is
how attribute mutation on the shared Migration object is modelled. -/
def aset {α : Type} : List (String × α) → String → α → List (String × α)
  | [], _, _ => []
  | (k, v) :: rest, key, v1 =>
    if k = key then (k, v1) :: rest else (k, v) :: aset rest key v1

/-- Python dict assignment `d[k] = v`: replace if present, append if new. -/
def ainsert {α : Type} : List (String × α) → String → α → List (String × α)
  | [], key, v1 => [(key, v1)]
  | (k, v) :: rest, key, v1 =>
    if k = key then (k, v1) :: rest else (k, v) :: ainsert rest key v1

/-- Python dict.update over an association-list environment. -/
def env_update (base upd : List (String × String)) : List (String × String) :=
  upd.foldl (fun acc kv => ainsert acc kv.1 kv.2) base

/-- ConnectionManager: the two dicts the engine consults. -/
structure ConnectionManager where
  source_connections : List (String × SourceConnection) := []
  snowflake_connections : List (String × SnowflakeConnection) := []

/-- ConnectionManager.get_source_connection. -/
def ConnectionManager.get_source_connection (cm : ConnectionManager)
    (connection_id : String) : Option SourceConnection :=
  alookup cm.source_connections connection_id

/-- ConnectionManager.get_snowflake_connection. -/
def ConnectionManager.get_snowflake_connection (cm : ConnectionManager)
    (connection_id : String) : Option SnowflakeConnection :=
  alookup cm.snowflake_connections connection_id

/-- Exceptions raised by the engine's control operations: KeyError for an
unknown job, ValueError for state-machine violations, missing connections,
and the concurrency ceiling. -/
inductive EngineError where
  | notFound (id : String)
  | invalidState (msg : String)
  | connectionNotFound
  | concurrencyLimit (limit : Nat)
deriving DecidableEq

/-- Signals MigrationEngine sends to the child process. -/
inductive ProcSignal where
  | sigint
  | sigterm
  | sigkill
deriving DecidableEq

/-- MigrationEngine mutable state: `_migrations` and the `_processes`
registry (modelled as the list of job ids holding a Popen entry). -/
structure EngineState where
  migrations : List (String × Migration) := []
  processes : List String := []
deriving DecidableEq

def EngineState.init : EngineState := {}

/-- `self._migrations.get(migration_id)`. -/
def EngineState.getMigration (s : EngineState) (migration_id : String) :
    Option Migration :=
  alookup s.migrations migration_id

/-- Mutation of the Migration object stored under a key. -/
def EngineState.setMigration (s : EngineState) (migration_id : String)
    (m : Migration) : EngineState :=
  { s with migrations := aset s.migrations migration_id m }

/-- `self._processes.pop(migration_id, None)`. -/
def EngineState.popProcess (s : EngineState) (migration_id : String) :
    EngineState :=
  { s with processes := s.processes.filter (fun p => p != migration_id) }

/-- MigrationEngine.create_migration: build a Queued job whose progress has
`total_tables = len(config.tables)` and register it. The fresh uuid is a
parameter. -/
def create_migration (new_id : String) (config : MigrationConfig) : Migration :=
  { id := new_id,
    source_connection_id := config.source_connection_id,
    target_connection_id := config.target_connection_id,
    staging_area_id := config.staging_area_id,
    tables := config.tables,
    target_schema := config.target_schema,
    status := MigrationStatus.queued,
    progress := { total_tables := (config.tables.length : Int) } }

/-- The state effect of create_migration: `self._migrations[id] = m`. -/
def EngineState.createMigration (s : EngineState) (new_id : String)
    (config : MigrationConfig) : EngineState :=
  { s with migrations := ainsert s.migrations new_id (create_migration new_id config) }

/-- Status filter used by list_active_migrations: RUNNING, QUEUED or
PAUSED. -/
def statusActive (st : MigrationStatus) : Bool :=
  match st with
  | MigrationStatus.running => true
  | MigrationStatus.queued => true
  | MigrationStatus.paused => true
  | _ => false

/-- MigrationEngine.list_active_migrations. -/
def list_active_migrations (s : EngineState) : List Migration :=
  (s.migrations.map Prod.snd).filter (fun m => statusActive m.status)

/-- MigrationEngine.list_migrations. -/
def list_migrations (s : EngineState) : List Migration :=
  s.migrations.map Prod.snd

/-- Join of `t.full_name` over the job's tables with "," as in
start_migration. -/
def tables_arg (tables : List TableSelection) : String :=
  String.intercalate "," (tables.map TableSelection.full_name)

/-- The `--target-schema` value: Python `migration.target_schema or
target_conn.schema_name` (an empty override string is falsy). -/
def target_schema_arg (m : Migration) (target_conn : SnowflakeConnection) :
    String :=
  match m.target_schema with
  | none => target_conn.schema_name
  | some ts => if ts = "" then target_conn.schema_name else ts

/-- The argument list built in start_migration lines 119-134: only
non-secret connection fields appear. -/
def buildArgs (source_conn : SourceConnection) (target_conn : SnowflakeConnection)
    (m : Migration) : List String :=
  ["migrate",
   "--source-type", source_conn.type,
   "--source-host", source_conn.host,
   "--source-port", toString source_conn.port,
   "--source-database", source_conn.database,
   "--source-user", source_conn.username,
   "--tables", tables_arg m.tables,
   "--target-account", target_conn.account,
   "--target-warehouse", target_conn.warehouse,
   "--target-database", target_conn.database,
   "--target-schema", target_schema_arg m target_conn,
   "--target-user", target_conn.username,
   "--staging-id", m.staging_area_id,
   "--progress-format", "json"]

/-- The credential environment built in start_migration lines 137-140:
exactly the two password entries. -/
def buildEnv (source_conn : SourceConnection) (target_conn : SnowflakeConnection) :
    List (String × String) :=
  [("SNOWMIGRATE_SOURCE_PASSWORD", source_conn.password),
   ("SNOWMIGRATE_TARGET_PASSWORD", target_conn.password)]

/-- The process environment assembled in _run_migration:
`os.environ.copy()` updated with the credential map. -/
def process_env (inherited : List (String × String))
    (source_conn : SourceConnection) (target_conn : SnowflakeConnection) :
    List (String × String) :=
  env_update inherited (buildEnv source_conn target_conn)

/-- The spawn request handed to _run_migration by start_migration. -/
structure LaunchRequest where
  migration_id : String
  args : List String
  env : List (String × String)
deriving DecidableEq

/-- MigrationEngine.start_migration, up to spawning the background task.
Raised exceptions become `Except.error`; the returned state carries the
mutations that happened before the raise (on the concurrency-limit path the
job reverts to QUEUED but keeps the fresh started_at). -/
def start_migration (now : Int) (cm : ConnectionManager) (max_concurrent : Nat)
    (s : EngineState) (migration_id : String) :
    EngineState × Except EngineError LaunchRequest :=
  match s.getMigration migration_id with
  | none => (s, Except.error (EngineError.notFound migration_id))
  | some migration =>
    if migration.status = MigrationStatus.queued ∨
        migration.status = MigrationStatus.paused then
      match cm.get_source_connection migration.source_connection_id,
            cm.get_snowflake_connection migration.target_connection_id with
      | some source_conn, some target_conn =>
        let m1 := { migration with status := MigrationStatus.running,
                                   started_at := some now }
        let s1 := s.setMigration migration_id m1
        let active_count := (list_active_migrations s1).length
        if active_count > max_concurrent then
          (s1.setMigration migration_id { m1 with status := MigrationStatus.queued },
           Except.error (EngineError.concurrencyLimit max_concurrent))
        else
          (s1, Except.ok { migration_id := migration_id,
                           args := buildArgs source_conn target_conn m1,
                           env := buildEnv source_conn target_conn })
      | _, _ => (s, Except.error EngineError.connectionNotFound)
    else
      (s, Except.error (EngineError.invalidState "Cannot start migration in this state"))

/-- MigrationEngine.pause_migration: requires RUNNING; sends SIGINT only if
the `_processes` registry holds an entry for the job; sets PAUSED. -/
def pause_migration (s : EngineState) (migration_id : String) :
    EngineState × Except EngineError (List ProcSignal) :=
  match s.getMigration migration_id with
  | none => (s, Except.error (EngineError.notFound migration_id))
  | some migration =>
    if migration.status = MigrationStatus.running then
      let sigs := if s.processes.contains migration_id then [ProcSignal.sigint] else []
      (s.setMigration migration_id { migration with status := MigrationStatus.paused },
       Except.ok sigs)
    else
      (s, Except.error (EngineError.invalidState "Can only pause running migrations"))

/-- MigrationEngine.resume_migration delegates to start_migration. -/
def resume_migration (now : Int) (cm : ConnectionManager) (max_concurrent : Nat)
    (s : EngineState) (migration_id : String) :
    EngineState × Except EngineError LaunchRequest :=
  start_migration now cm max_concurrent s migration_id

/-- MigrationEngine.cancel_migration: any known job is accepted; if the
`_processes` registry holds an entry, terminate is sent and, unless the
process exits within the 5-second grace window (`exits_in_grace`), kill
follows; the job is then set CANCELLED with a fresh completion stamp. -/
def cancel_migration (now : Int) (exits_in_grace : Bool) (s : EngineState)
    (migration_id : String) :
    EngineState × Except EngineError (List ProcSignal) :=
  match s.getMigration migration_id with
  | none => (s, Except.error (EngineError.notFound migration_id))
  | some migration =>
    let sigs :=
      if s.processes.contains migration_id then
        if exits_in_grace then [ProcSignal.sigterm]
        else [ProcSignal.sigterm, ProcSignal.sigkill]
      else []
    let m1 := { migration with status := MigrationStatus.cancelled,
                               completed_at := some now }
    (s.setMigration migration_id m1, Except.ok sigs)

/-- The fixed grace window (seconds) cancel_migration allows before kill. -/
def cancel_grace_seconds : Nat := 5

/-- Outcome of create_subprocess_exec in _run_migration. -/
inductive SpawnResult where
  | spawned (pid : Int)
  | fileNotFound
  | otherFailure (msg : String)
deriving DecidableEq

/-- One iteration of the read_progress loop in _run_migration: a line
json.loads rejects is swallowed by the JSONDecodeError handler; a valid
JSON non-object makes `data.get` raise AttributeError, which that handler
does not catch (the Bool records the escaped exception); a JSON object is
parsed and assigned to `migration.progress`. -/
def read_progress_line (now : Int) (m : Migration) (l : LineDecode) :
    Migration × Bool :=
  match l with
  | LineDecode.malformed => (m, false)
  | LineDecode.nonObject => (m, true)
  | LineDecode.object d => ({ m with progress := parse_progress now d m }, false)

/-- One iteration of the read_errors loop in _run_migration: only an object
with type "error" touches the job, setting its error message. -/
def read_error_line (m : Migration) (l : LineDecode) : Migration × Bool :=
  match l with
  | LineDecode.malformed => (m, false)
  | LineDecode.nonObject => (m, true)
  | LineDecode.object d =>
    if d.type = some "error" then
      ({ m with error := some (d.message.getD "Unknown error") }, false)
    else (m, false)

/-- A stream-consumption loop: apply the per-line step until the stream
ends or an uncaught exception escapes the loop body. -/
def read_stream_loop (step : Migration → LineDecode → Migration × Bool) :
    Migration → List LineDecode → Migration × Bool
  | m, [] => (m, false)
  | m, l :: ls =>
    match step m l with
    | (m1, true) => (m1, true)
    | (m1, false) => read_stream_loop step m1 ls

/-- Python truthiness test `not migration.error`. -/
def errorFalsy (e : Option String) : Bool :=
  match e with
  | none => true
  | some s => s = ""

/-- Exit-code handling in _run_migration lines 292-297: zero means
COMPLETED; nonzero means FAILED with a synthesized message when no error
was recorded. -/
def finalize_exit (returncode : Int) (m : Migration) : Migration :=
  if returncode = 0 then { m with status := MigrationStatus.completed }
  else
    let m1 := { m with status := MigrationStatus.failed }
    if errorFalsy m1.error then
      { m1 with error := some ("CLI exited with code " ++ toString returncode) }
    else m1

/-- The successful-spawn body of _run_migration: record the pid, run both
stream loops (they touch disjoint Migration fields, so the concurrent
interleaving is modelled as stderr then stdout), let an escaped exception
from either loop land in the outer handler (job FAILED, message recorded,
exit code never consulted), otherwise finalize the exit code; the finally
block stamps completed_at. -/
def run_final (now end_time : Int) (pid : Int)
    (stdout_lines stderr_lines : List LineDecode) (returncode : Int)
    (migration : Migration) : Migration :=
  let m1 := { migration with cli_process_id := some pid }
  let em := read_stream_loop read_error_line m1 stderr_lines
  let pm := read_stream_loop (read_progress_line now) em.1 stdout_lines
  let m4 :=
    if pm.2 || em.2 then
      { pm.1 with status := MigrationStatus.failed,
                  error := some "AttributeError" }
    else finalize_exit returncode pm.1
  { m4 with completed_at := some end_time }

/-- MigrationEngine._run_migration, sequentialized: an unknown id returns
silently; a spawn failure marks the job FAILED with a descriptive message;
otherwise the spawned-process body `run_final` runs. The finally block
always stamps completed_at and pops the `_processes` entry. -/
def run_migration (cli_path : String) (now end_time : Int) (spawn : SpawnResult)
    (stdout_lines stderr_lines : List LineDecode) (returncode : Int)
    (s : EngineState) (migration_id : String) : EngineState :=
  match s.getMigration migration_id with
  | none => s
  | some migration =>
    let final :=
      match spawn with
      | SpawnResult.fileNotFound =>
        { migration with status := MigrationStatus.failed,
                         error := some ("CLI tool not found at " ++ cli_path),
                         completed_at := some end_time }
      | SpawnResult.otherFailure msg =>
        { migration with status := MigrationStatus.failed,
                         error := some msg,
                         completed_at := some end_time }
      | SpawnResult.spawned pid =>
        run_final now end_time pid stdout_lines stderr_lines returncode migration
    (s.setMigration migration_id final).popProcess migration_id

/-- One state transition of the engine: any control operation or the
completion of a supervisor task, with arbitrary arguments. -/
inductive Step : EngineState → EngineState → Prop where
  | create (s : EngineState) (new_id : String) (config : MigrationConfig) :
      Step s (s.createMigration new_id config)
  | start (s : EngineState) (now : Int) (cm : ConnectionManager)
      (max_concurrent : Nat) (migration_id : String) :
      Step s (start_migration now cm max_concurrent s migration_id).1
  | pause (s : EngineState) (migration_id : String) :
      Step s (pause_migration s migration_id).1
  | cancel (s : EngineState) (now : Int) (exits_in_grace : Bool)
      (migration_id : String) :
      Step s (cancel_migration now exits_in_grace s migration_id).1
  | run (s : EngineState) (cli_path : String) (now end_time : Int)
      (spawn : SpawnResult) (stdout_lines stderr_lines : List LineDecode)
      (returncode : Int) (migration_id : String) :
      Step s (run_migration cli_path now end_time spawn stdout_lines stderr_lines
        returncode s migration_id)

/-- Engine states reachable from a freshly constructed MigrationEngine. -/
inductive Reachable : EngineState → Prop where
  | init : Reachable EngineState.init
  | step {s t : EngineState} : Reachable s → Step s t → Reachable t

/-! Concrete instances used to test the claims on small inputs. -/

/-- Snapshot invariant claimed by the spec for every observed snapshot. -/
def progress_invariant (p : MigrationProgress) : Prop :=
  p.completed_tables ≤ p.total_tables ∧
  (p.total_rows ≠ 0 → p.migrated_rows ≤ p.total_rows)

instance progress_invariant_decidable (p : MigrationProgress) :
    Decidable (progress_invariant p) := by
  unfold progress_invariant
  infer_instance

/-- Terminal statuses per the spec. -/
def statusTerminal (st : MigrationStatus) : Bool :=
  match st with
  | MigrationStatus.completed => true
  | MigrationStatus.failed => true
  | MigrationStatus.cancelled => true
  | _ => false

/-- A snapshot with a negative row total, reachable because progress events
copy `total_rows` straight from the wire. -/
def c9_snapshot : MigrationProgress :=
  { total_tables := 4, completed_tables := 2, total_rows := -1 }

/-- The spec's table-fallback example instance with nonzero row counter. -/
def c9_nonneg_snapshot : MigrationProgress :=
  { total_tables := 4, completed_tables := 2, migrated_rows := 7 }

/-- A one-table job mid-run. -/
def c4_migration : Migration :=
  { id := "job-1", source_connection_id := "src-1",
    target_connection_id := "tgt-1", staging_area_id := "s3-default",
    tables := [{ schema_name := "public", table_name := "users" }],
    status := MigrationStatus.running,
    progress := { total_tables := 1 } }

def table_complete_event : ProtoData := { type := some "table_complete" }

/-- A progress event whose row counters contradict each other. -/
def inconsistent_progress_event : ProtoData :=
  { type := some "progress", rows_migrated := some 5, total_rows := some 3 }

/-- An ordinary progress event. -/
def plain_progress_event : ProtoData :=
  { type := some "progress", table := some "public.users",
    rows_migrated := some 10, total_rows := some 100,
    percentage := some 10 }

/-- A progress event with a zero row counter, which skips the rate/ETA
update but still rewrites the snapshot's row totals. -/
def snapshot_change_event : ProtoData :=
  { type := some "progress", table := some "public.orders",
    rows_migrated := some 0, total_rows := some 50 }

/-- A job that has already completed. -/
def c1_completed_migration : Migration :=
  { id := "done-1", source_connection_id := "src-1",
    target_connection_id := "tgt-1", staging_area_id := "s3-default",
    tables := [{ schema_name := "public", table_name := "users" }],
    status := MigrationStatus.completed,
    progress := { total_tables := 1, completed_tables := 1 },
    started_at := some 0, completed_at := some 10 }

def c1_state : EngineState := { migrations := [("done-1", c1_completed_migration)] }

instance exceptDecidableEq {ε α : Type} [DecidableEq ε] [DecidableEq α] :
    DecidableEq (Except ε α) := fun a b =>
  match a, b with
  | Except.ok x, Except.ok y => decidable_of_iff (x = y) (by simp)
  | Except.error x, Except.error y => decidable_of_iff (x = y) (by simp)
  | Except.ok _, Except.error _ => isFalse (by simp)
  | Except.error _, Except.ok _ => isFalse (by simp)

def example_src : SourceConnection :=
  { id := "src-1", name := "pg", type := "postgres",
    host := "localhost", port := 5432, database := "db",
    username := "alice", password := "s3cret" }

def example_tgt : SnowflakeConnection :=
  { id := "tgt-1", name := "sf", account := "acct",
    warehouse := "wh", database := "sfdb", schema_name := "PUBLIC",
    username := "bob", password := "hunter2" }

/-- Connection manager holding one source and one target connection. -/
def example_cm : ConnectionManager :=
  { source_connections := [("src-1", example_src)],
    snowflake_connections := [("tgt-1", example_tgt)] }

def example_config : MigrationConfig :=
  { source_connection_id := "src-1", target_connection_id := "tgt-1",
    staging_area_id := "s3-default",
    tables := [{ schema_name := "public", table_name := "users" }] }

/-- A paused job occupying an admission slot. -/
def c2_paused_migration : Migration :=
  { create_migration "paused-1" example_config with
      status := MigrationStatus.paused, started_at := some 0 }

/-- The queued job whose start is attempted. -/
def c2_queued_migration : Migration := create_migration "queued-1" example_config

def c2_state : EngineState :=
  { migrations := [("paused-1", c2_paused_migration),
                   ("queued-1", c2_queued_migration)] }

/-- The spec's admission count: jobs already Running or Queued. -/
def runningOrQueued (st : MigrationStatus) : Bool :=
  match st with
  | MigrationStatus.running => true
  | MigrationStatus.queued => true
  | _ => false

/-- A running job bound to a live child process. -/
def c3_running_migration : Migration :=
  { create_migration "run-1" example_config with
      status := MigrationStatus.running, started_at := some 0 }

def c3_state : EngineState := { migrations := [("run-1", c3_running_migration)] }

/-- Engine state after create_migration of a single job. -/
def example_s1 : EngineState := EngineState.init.createMigration "job-1" example_config

/-- Engine state after start_migration admits that job. -/
def example_s2 : EngineState := (start_migration 0 example_cm 10 example_s1 "job-1").1

/-- The shape the job has inside example_s2. -/
def example_running_migration : Migration :=
  { create_migration "job-1" example_config with
      status := MigrationStatus.running, started_at := some 0 }

/-- Engine state after cancel_migration of the running job. -/
def example_s3 : EngineState := (cancel_migration 1 true example_s2 "job-1").1

/-- Engine state after the supervisor task finishes: clean exit code 0,
no stream output. -/
def example_s4 : EngineState :=
  run_migration "/usr/local/bin/migrate-tool" 1 2 (SpawnResult.spawned 7) [] [] 0
    example_s3 "job-1"

/-! Helper lemmas. -/

theorem alookup_aset {α : Type} (l : List (String × α)) (k : String) (v1 : α) :
    alookup (aset l k v1) k = (alookup l k).map (fun _ => v1) := by
  induction l with
  | nil => rfl
  | cons kv rest ih =>
    obtain ⟨k1, v⟩ := kv
    by_cases hk : k1 = k
    · simp [aset, alookup, hk]
    · simp [aset, alookup, hk, ih]

theorem getMigration_setMigration_self (s : EngineState) (migration_id : String)
    (m m1 : Migration) (h : s.getMigration migration_id = some m) :
    (s.setMigration migration_id m1).getMigration migration_id = some m1 := by
  have h1 : alookup s.migrations migration_id = some m := h
  show alookup (aset s.migrations migration_id m1) migration_id = some m1
  rw [alookup_aset, h1]
  rfl

theorem start_migration_processes (now : Int) (cm : ConnectionManager)
    (max_concurrent : Nat) (s : EngineState) (migration_id : String) :
    (start_migration now cm max_concurrent s migration_id).1.processes =
      s.processes := by
  unfold start_migration
  repeat' split
  all_goals try rfl
  all_goals (dsimp only; split <;> rfl)

theorem pause_migration_processes (s : EngineState) (migration_id : String) :
    (pause_migration s migration_id).1.processes = s.processes := by
  unfold pause_migration
  repeat' split
  all_goals rfl

theorem cancel_migration_processes (now : Int) (exits_in_grace : Bool)
    (s : EngineState) (migration_id : String) :
    (cancel_migration now exits_in_grace s migration_id).1.processes =
      s.processes := by
  unfold cancel_migration
  repeat' split
  all_goals rfl

theorem run_migration_processes (cli_path : String) (now end_time : Int)
    (spawn : SpawnResult) (stdout_lines stderr_lines : List LineDecode)
    (returncode : Int) (s : EngineState) (migration_id : String)
    (h : s.processes = []) :
    (run_migration cli_path now end_time spawn stdout_lines stderr_lines
      returncode s migration_id).processes = [] := by
  unfold run_migration
  repeat' split
  all_goals simp [EngineState.popProcess, EngineState.setMigration, h]

/-- The `_processes` registry is never populated: `_run_migration` records
the pid only on the Migration record and pops the registry in its finally
block, so every reachable engine state has an empty registry. -/
theorem Reachable.processes_nil {s : EngineState} (h : Reachable s) :
    s.processes = [] := by
  induction h with
  | init => rfl
  | step hr hstep ih =>
    cases hstep with
    | create new_id config => exact ih
    | start now cm max_concurrent migration_id =>
      rw [start_migration_processes]; exact ih
    | pause migration_id =>
      rw [pause_migration_processes]; exact ih
    | cancel now exits_in_grace migration_id =>
      rw [cancel_migration_processes]; exact ih
    | run cli_path now end_time spawn stdout_lines stderr_lines returncode migration_id =>
      exact run_migration_processes _ _ _ _ _ _ _ _ _ ih

theorem read_stream_loop_snd_false (step : Migration → LineDecode → Migration × Bool)
    (hstep : ∀ m l, l ≠ LineDecode.nonObject → (step m l).2 = false) :
    ∀ (lines : List LineDecode) (m : Migration), LineDecode.nonObject ∉ lines →
      (read_stream_loop step m lines).2 = false := by
  intro lines
  induction lines with
  | nil => intro m _; rfl
  | cons l ls ih =>
    intro m h
    simp only [List.mem_cons, not_or] at h
    obtain ⟨h1, h2⟩ := h
    have hs := hstep m l (fun he => h1 he.symm)
    unfold read_stream_loop
    rcases hml : step m l with ⟨m1, b⟩
    rw [hml] at hs
    simp only at hs
    subst hs
    exact ih m1 h2

theorem read_stream_loop_preserves {β : Type}
    (step : Migration → LineDecode → Migration × Bool) (f : Migration → β)
    (hstep : ∀ m l, f (step m l).1 = f m) :
    ∀ (lines : List LineDecode) (m : Migration),
      f (read_stream_loop step m lines).1 = f m := by
  intro lines
  induction lines with
  | nil => intro m; rfl
  | cons l ls ih =>
    intro m
    unfold read_stream_loop
    rcases hml : step m l with ⟨m1, b⟩
    have hf : f m1 = f m := by
      have := hstep m l
      rw [hml] at this
      exact this
    cases b
    · simpa [hf] using ih m1
    · simpa using hf

theorem read_progress_line_snd (now : Int) (m : Migration) (l : LineDecode)
    (h : l ≠ LineDecode.nonObject) : (read_progress_line now m l).2 = false := by
  cases l with
  | malformed => rfl
  | nonObject => exact absurd rfl h
  | object d => rfl

theorem read_error_line_snd (m : Migration) (l : LineDecode)
    (h : l ≠ LineDecode.nonObject) : (read_error_line m l).2 = false := by
  cases l with
  | malformed => rfl
  | nonObject => exact absurd rfl h
  | object d =>
    simp only [read_error_line]
    split <;> rfl

theorem alookup_ainsert {α : Type} (l : List (String × α)) (key k : String)
    (v : α) :
    alookup (ainsert l key v) k = if k = key then some v else alookup l k := by
  induction l with
  | nil =>
    by_cases h : k = key
    · simp [ainsert, alookup, h]
    · simp [ainsert, alookup, h, Ne.symm h]
  | cons kv rest ih =>
    obtain ⟨k1, v1⟩ := kv
    by_cases h1 : k1 = key
    · subst h1
      by_cases h2 : k1 = k
      · subst h2
        simp [ainsert, alookup]
      · simp [ainsert, alookup, h2, Ne.symm h2]
    · by_cases h2 : k1 = k
      · subst h2
        simp [ainsert, alookup, h1]
      · simp [ainsert, alookup, h1, h2, ih]

theorem read_progress_line_status (now : Int) (m : Migration) (l : LineDecode) :
    (read_progress_line now m l).1.status = m.status := by
  cases l <;> rfl

theorem read_progress_line_error (now : Int) (m : Migration) (l : LineDecode) :
    (read_progress_line now m l).1.error = m.error := by
  cases l <;> rfl

theorem read_error_line_status (m : Migration) (l : LineDecode) :
    (read_error_line m l).1.status = m.status := by
  cases l with
  | malformed => rfl
  | nonObject => rfl
  | object d =>
    simp only [read_error_line]
    split <;> rfl

theorem read_error_loop_error :
    ∀ (lines : List LineDecode) (m : Migration),
      (∀ d, LineDecode.object d ∈ lines → d.type ≠ some "error") →
      (read_stream_loop read_error_line m lines).1.error = m.error := by
  intro lines
  induction lines with
  | nil => intro m _; rfl
  | cons l ls ih =>
    intro m h
    have hls : ∀ d, LineDecode.object d ∈ ls → d.type ≠ some "error" := by
      intro d hd
      exact h d (List.mem_cons_of_mem _ hd)
    unfold read_stream_loop
    cases l with
    | malformed => exact ih m hls
    | nonObject => rfl
    | object d =>
      have hne : d.type ≠ some "error" := h d (List.mem_cons_self _ _)
      have hstep2 : read_error_line m (LineDecode.object d) = (m, false) := by
        simp [read_error_line, hne]
      rw [hstep2]
      exact ih m hls

theorem update_rate_counters (now : Int) (started_at : Option Int)
    (p : MigrationProgress) :
    (update_rate now started_at p).completed_tables = p.completed_tables ∧
    (update_rate now started_at p).total_tables = p.total_tables ∧
    (update_rate now started_at p).migrated_rows = p.migrated_rows ∧
    (update_rate now started_at p).total_rows = p.total_rows := by
  unfold update_rate
  cases started_at with
  | none => exact ⟨rfl, rfl, rfl, rfl⟩
  | some started =>
    dsimp only
    split_ifs <;> exact ⟨rfl, rfl, rfl, rfl⟩

/-! Claim theorems. -/

/-- C9 (counterexample): the code computes the percentage with a
`total_rows == 0` test, not the claimed `total_rows > 0` guard; on a
snapshot with `total_rows = -1`, `total_tables = 4`, `completed_tables = 2`
the code returns 0 while the claimed case split yields the table fallback
50. -/
theorem percentage_guard_counterexample :
    c9_snapshot.percentage = 0 ∧
    percentage_spec c9_snapshot = 50 ∧
    c9_snapshot.percentage ≠ percentage_spec c9_snapshot ∧
    ¬ (0 < c9_snapshot.total_rows) ∧ 0 < c9_snapshot.total_tables := by
  refine ⟨by norm_num [c9_snapshot, MigrationProgress.percentage],
          by norm_num [c9_snapshot, percentage_spec],
          by norm_num [c9_snapshot, MigrationProgress.percentage, percentage_spec],
          by decide, by decide⟩

/-- C9 (amended): on snapshots whose counters are nonnegative — the code
branches on `total_rows == 0` rather than `total_rows > 0` — the claimed
formula holds exactly: rows-based percentage when `total_rows > 0`,
table-based fallback when `total_tables > 0`, else 0; and the fallback
instance total_rows=0, total_tables=4, completed_tables=2 gives 50
independent of the row counter. -/
theorem percentage_formula_nonneg (p : MigrationProgress)
    (h1 : 0 ≤ p.total_rows) (h2 : 0 ≤ p.total_tables) :
    p.percentage = percentage_spec p ∧
    ∀ mr : Int, MigrationProgress.percentage
      { total_tables := 4, completed_tables := 2, total_rows := 0,
        migrated_rows := mr } = 50 := by
  constructor
  · unfold MigrationProgress.percentage percentage_spec
    by_cases hr : p.total_rows = 0
    · have hr2 : ¬ (0 < p.total_rows) := by omega
      by_cases ht : p.total_tables = 0
      · have ht2 : ¬ (0 < p.total_tables) := by omega
        simp [hr, ht, hr2, ht2]
      · have ht2 : 0 < p.total_tables := by omega
        simp [hr, ht, hr2, ht2]
    · have hr2 : 0 < p.total_rows := by omega
      simp [hr, hr2]
  · intro mr
    norm_num [MigrationProgress.percentage]

theorem percentage_formula_nonneg_witness :
    (0 ≤ c9_nonneg_snapshot.total_rows ∧ 0 ≤ c9_nonneg_snapshot.total_tables) ∧
    (c9_nonneg_snapshot.percentage = percentage_spec c9_nonneg_snapshot ∧
     ∀ mr : Int, MigrationProgress.percentage
       { total_tables := 4, completed_tables := 2, total_rows := 0,
         migrated_rows := mr } = 50) :=
  ⟨⟨by decide, by decide⟩,
   percentage_formula_nonneg c9_nonneg_snapshot (by decide) (by decide)⟩

/-- C4 (counterexample): the parser clamps neither counter; on a one-table
job, two table_complete events drive completed_tables to 2 > 1 =
total_tables, and a progress event carrying rows_migrated=5, total_rows=3
puts migrated_rows above total_rows. -/
theorem progress_invariant_counterexample :
    progress_invariant c4_migration.progress ∧
    ¬ progress_invariant (read_stream_loop (read_progress_line 0) c4_migration
        [LineDecode.object table_complete_event,
         LineDecode.object table_complete_event]).1.progress ∧
    ¬ progress_invariant (read_stream_loop (read_progress_line 0) c4_migration
        [LineDecode.object inconsistent_progress_event]).1.progress := by
  exact ⟨by decide, by decide, by decide⟩

/-- C4 (amended): applying one event preserves
`completed_tables ≤ total_tables` and `total_rows ≠ 0 → migrated_rows ≤
total_rows` provided a progress event carries both row counters with
`rows_migrated ≤ total_rows` and a table_complete event arrives only while
`completed_tables < total_tables`; without those stream conditions the
invariant can be violated, since the code performs no clamping. -/
theorem parse_progress_preserves_invariant (now : Int) (m : Migration)
    (d : ProtoData)
    (hinv : progress_invariant m.progress)
    (hprog : d.type = some "progress" →
      ∃ r t, d.rows_migrated = some r ∧ d.total_rows = some t ∧ r ≤ t)
    (htc : d.type = some "table_complete" →
      m.progress.completed_tables < m.progress.total_tables) :
    progress_invariant (parse_progress now d m) := by
  obtain ⟨hct, hmr⟩ := hinv
  have he : progress_invariant (apply_event d m.progress) := by
    unfold apply_event
    dsimp only
    split_ifs with h1 h2 h3
    · have htype : d.type = some "progress" := by
        rcases hd : d.type with _ | s
        · rw [hd] at h1; exact absurd h1 (by decide)
        · rw [hd] at h1
          simp only [Option.getD_some] at h1
          rw [h1]
      obtain ⟨r, t, hrm, hrt, hle⟩ := hprog htype
      refine ⟨hct, ?_⟩
      intro _
      simp only [hrm, hrt, Option.getD_some]
      exact hle
    · have htype : d.type = some "table_complete" := by
        rcases hd : d.type with _ | s
        · rw [hd] at h2; exact absurd h2 (by decide)
        · rw [hd] at h2
          simp only [Option.getD_some] at h2
          rw [h2]
      have hlt := htc htype
      refine ⟨?_, fun hne => hmr hne⟩
      show m.progress.completed_tables + 1 ≤ m.progress.total_tables
      omega
    · exact ⟨le_refl _, fun _ => le_refl _⟩
    · exact ⟨hct, hmr⟩
  unfold parse_progress
  obtain ⟨e1, e2, e3, e4⟩ :=
    update_rate_counters now m.started_at (apply_event d m.progress)
  unfold progress_invariant at he ⊢
  rw [e1, e2, e3, e4]
  exact he

theorem parse_progress_preserves_invariant_witness :
    progress_invariant c4_migration.progress ∧
    progress_invariant (parse_progress 0 plain_progress_event c4_migration) :=
  ⟨by decide,
   parse_progress_preserves_invariant 0 c4_migration plain_progress_event
     (by decide)
     (fun _ => ⟨10, 100, by decide, by decide, by decide⟩)
     (fun h => absurd h (by decide))⟩

/-- C1 (counterexample): terminal records are not immutable.
cancel_migration rewrites an already-Completed job to Cancelled with a
fresh completion stamp, and a progress event applied to that non-Running
job still rewrites its snapshot's row total. -/
theorem terminal_immutability_counterexample :
    c1_completed_migration.status = MigrationStatus.completed ∧
    ((cancel_migration 99 true c1_state "done-1").1.getMigration
        "done-1").map Migration.status = some MigrationStatus.cancelled ∧
    ((cancel_migration 99 true c1_state "done-1").1.getMigration
        "done-1").map Migration.completed_at = some (some 99) ∧
    (read_progress_line 5 c1_completed_migration
        (LineDecode.object snapshot_change_event)).1.progress.total_rows = 50 ∧
    c1_completed_migration.progress.total_rows = 0 := by
  exact ⟨by decide, by decide, by decide, by decide, by decide⟩

/-- C1 (amended): a terminal job is immutable under start and pause, which
reject it with an invalid-state error and leave the state unchanged, and
under lines that fail to decode; but cancel_migration and the supervisor
finalization still overwrite status and timestamps, and event application
still rewrites the snapshot, so unconditional terminal immutability does
not hold. -/
theorem terminal_rejects_start_and_pause (now : Int) (cm : ConnectionManager)
    (max_concurrent : Nat) (s : EngineState) (migration_id : String)
    (m : Migration)
    (h : s.getMigration migration_id = some m)
    (hterm : statusTerminal m.status = true) :
    start_migration now cm max_concurrent s migration_id =
      (s, Except.error
        (EngineError.invalidState "Cannot start migration in this state")) ∧
    pause_migration s migration_id =
      (s, Except.error
        (EngineError.invalidState "Can only pause running migrations")) ∧
    ∀ now2 : Int,
      read_progress_line now2 m LineDecode.malformed = (m, false) := by
  have hnq : ¬ (m.status = MigrationStatus.queued ∨
      m.status = MigrationStatus.paused) := by
    cases hst : m.status <;> simp_all [statusTerminal]
  have hnr : ¬ m.status = MigrationStatus.running := by
    cases hst : m.status <;> simp_all [statusTerminal]
  refine ⟨?_, ?_, fun now2 => rfl⟩
  · unfold start_migration
    rw [h]
    dsimp only
    rw [if_neg hnq]
  · unfold pause_migration
    rw [h]
    dsimp only
    rw [if_neg hnr]

theorem terminal_rejects_start_and_pause_witness :
    c1_state.getMigration "done-1" = some c1_completed_migration ∧
    statusTerminal c1_completed_migration.status = true ∧
    (start_migration 3 example_cm 10 c1_state "done-1" =
      (c1_state, Except.error
        (EngineError.invalidState "Cannot start migration in this state")) ∧
     pause_migration c1_state "done-1" =
      (c1_state, Except.error
        (EngineError.invalidState "Can only pause running migrations")) ∧
     ∀ now2 : Int, read_progress_line now2 c1_completed_migration
       LineDecode.malformed = (c1_completed_migration, false)) :=
  ⟨by decide, by decide,
   terminal_rejects_start_and_pause 3 example_cm 10 c1_state "done-1"
     c1_completed_migration (by decide) (by decide)⟩

/-- C2 (counterexample): paused jobs also occupy admission slots, and the
job being started is counted as Running when the ceiling is checked. With
ceiling 1, one Paused job and one Queued job, exactly 1 job is
Running-or-Queued — so the claimed criterion admits — yet the start is
rejected with the concurrency error and the job reverts to Queued. -/
theorem admission_counts_paused_counterexample :
    ((c2_state.migrations.map Prod.snd).filter
        (fun m => runningOrQueued m.status)).length = 1 ∧
    (start_migration 5 example_cm 1 c2_state "queued-1").2 =
      Except.error (EngineError.concurrencyLimit 1) ∧
    ((start_migration 5 example_cm 1 c2_state "queued-1").1.getMigration
        "queued-1").map Migration.status = some MigrationStatus.queued := by
  exact ⟨by decide, by decide, by decide⟩

/-- C2 (amended): a start is admitted iff the number of active jobs —
Running, Queued or Paused, with the starting job already recounted as
Running — does not exceed the ceiling; on rejection the error is the
concurrency-limit condition and the job reverts to Queued (its started_at
keeps the fresh value). In particular, with the ceiling L filled by L
Running jobs, an additional start fails and reverts to Queued. -/
theorem start_admission_iff (now : Int) (cm : ConnectionManager)
    (max_concurrent : Nat) (s : EngineState) (migration_id : String)
    (m : Migration) (src : SourceConnection) (tgt : SnowflakeConnection)
    (h : s.getMigration migration_id = some m)
    (hst : m.status = MigrationStatus.queued ∨
      m.status = MigrationStatus.paused)
    (hsrc : cm.get_source_connection m.source_connection_id = some src)
    (htgt : cm.get_snowflake_connection m.target_connection_id = some tgt) :
    ((list_active_migrations (s.setMigration migration_id
        { m with status := MigrationStatus.running,
                 started_at := some now })).length ≤ max_concurrent →
      start_migration now cm max_concurrent s migration_id =
        (s.setMigration migration_id
          { m with status := MigrationStatus.running, started_at := some now },
         Except.ok { migration_id := migration_id,
                     args := buildArgs src tgt
                       { m with status := MigrationStatus.running,
                                started_at := some now },
                     env := buildEnv src tgt })) ∧
    (max_concurrent < (list_active_migrations (s.setMigration migration_id
        { m with status := MigrationStatus.running,
                 started_at := some now })).length →
      start_migration now cm max_concurrent s migration_id =
        ((s.setMigration migration_id
            { m with status := MigrationStatus.running,
                     started_at := some now }).setMigration migration_id
          { m with status := MigrationStatus.queued, started_at := some now },
         Except.error (EngineError.concurrencyLimit max_concurrent))) := by
  constructor
  · intro hle
    unfold start_migration
    rw [h]
    dsimp only
    rw [if_pos hst, hsrc, htgt]
    dsimp only
    rw [if_neg (not_lt.mpr hle)]
  · intro hgt
    unfold start_migration
    rw [h]
    dsimp only
    rw [if_pos hst, hsrc, htgt]
    dsimp only
    rw [if_pos hgt]

theorem start_admission_iff_witness :
    example_s1.getMigration "job-1" =
      some (create_migration "job-1" example_config) ∧
    example_cm.get_source_connection
      (create_migration "job-1" example_config).source_connection_id =
      some example_src ∧
    ((list_active_migrations (example_s1.setMigration "job-1"
        { create_migration "job-1" example_config with
            status := MigrationStatus.running,
            started_at := some 0 })).length ≤ 10 →
      start_migration 0 example_cm 10 example_s1 "job-1" =
        (example_s1.setMigration "job-1"
          { create_migration "job-1" example_config with
              status := MigrationStatus.running, started_at := some 0 },
         Except.ok { migration_id := "job-1",
                     args := buildArgs example_src example_tgt
                       { create_migration "job-1" example_config with
                           status := MigrationStatus.running,
                           started_at := some 0 },
                     env := buildEnv example_src example_tgt })) :=
  ⟨by decide, by decide,
   (start_admission_iff 0 example_cm 10 example_s1 "job-1"
     (create_migration "job-1" example_config) example_src example_tgt
     (by decide) (Or.inl (by decide)) (by decide) (by decide)).1⟩

/-- C3 (counterexample): a line of valid JSON that is not a JSON object
escapes the JSONDecodeError handler as an AttributeError, aborts the
supervisor, and the job is marked Failed even though the process exits 0;
the identical run whose line is malformed (not JSON at all) completes. -/
theorem non_object_line_counterexample :
    ((run_migration "/usr/local/bin/migrate-tool" 1 2 (SpawnResult.spawned 42)
        [LineDecode.nonObject] [] 0 c3_state "run-1").getMigration
        "run-1").map Migration.status = some MigrationStatus.failed ∧
    ((run_migration "/usr/local/bin/migrate-tool" 1 2 (SpawnResult.spawned 42)
        [LineDecode.malformed] [] 0 c3_state "run-1").getMigration
        "run-1").map Migration.status = some MigrationStatus.completed ∧
    ((run_migration "/usr/local/bin/migrate-tool" 1 2 (SpawnResult.spawned 42)
        [LineDecode.nonObject] [] 0 c3_state "run-1").getMigration
        "run-1").map Migration.error = some (some "AttributeError") := by
  exact ⟨by decide, by decide, by decide⟩

/-- C3 (amended): lines that fail to decode as JSON are swallowed by the
stream loops — the Migration is untouched and nothing is raised — and a
valid JSON object never changes the status from inside the stdout loop;
but a line of valid JSON that is not an object raises inside the loop
(recorded by the escape flag), which the supervisor's outer handler turns
into a Failed status rather than leaving the status unchanged. Control
callers of start/pause/cancel never see any of this: line handling lives
entirely inside the background supervisor task. -/
theorem line_decode_tolerance (now : Int) (m : Migration) (d : ProtoData) :
    read_progress_line now m LineDecode.malformed = (m, false) ∧
    read_error_line m LineDecode.malformed = (m, false) ∧
    (read_progress_line now m (LineDecode.object d)).1.status = m.status ∧
    (read_progress_line now m (LineDecode.object d)).2 = false ∧
    (read_progress_line now m LineDecode.nonObject).2 = true ∧
    (read_error_line m LineDecode.nonObject).2 = true :=
  ⟨rfl, rfl, read_progress_line_status now m _, rfl, rfl, rfl⟩

/-- C5 (code evaluation): cancel_migration never sends terminate or kill,
because the `_processes` registry it consults is never populated in any
reachable state; the job is marked Cancelled immediately, but the un-killed
child keeps running and the supervisor's exit handling later overwrites the
record: in the concrete create, start, cancel, exit-code-0 sequence the job
ends Completed with a refreshed completion stamp, not Cancelled. -/
theorem cancel_sends_no_signals (s : EngineState) (hr : Reachable s) :
    (∀ migration_id now exits_in_grace (sigs : List ProcSignal),
      (cancel_migration now exits_in_grace s migration_id).2 = Except.ok sigs →
      sigs = []) ∧
    (example_s3.getMigration "job-1").map Migration.status =
      some MigrationStatus.cancelled ∧
    (example_s3.getMigration "job-1").map Migration.completed_at =
      some (some 1) ∧
    (example_s4.getMigration "job-1").map Migration.status =
      some MigrationStatus.completed ∧
    (example_s4.getMigration "job-1").map Migration.completed_at =
      some (some 2) := by
  refine ⟨?_, by decide, by decide, by decide, by decide⟩
  intro migration_id now exits_in_grace sigs hok
  have hp : s.processes = [] := hr.processes_nil
  unfold cancel_migration at hok
  rcases hm : s.getMigration migration_id with _ | m
  · rw [hm] at hok
    exact absurd hok (by simp)
  · rw [hm] at hok
    simp only [hp, List.contains_nil, Bool.false_eq_true, if_false,
      Except.ok.injEq] at hok
    exact hok.symm

theorem cancel_sends_no_signals_witness :
    (∀ migration_id now exits_in_grace (sigs : List ProcSignal),
      (cancel_migration now exits_in_grace EngineState.init migration_id).2 =
        Except.ok sigs → sigs = []) ∧
    (example_s3.getMigration "job-1").map Migration.status =
      some MigrationStatus.cancelled ∧
    (example_s3.getMigration "job-1").map Migration.completed_at =
      some (some 1) ∧
    (example_s4.getMigration "job-1").map Migration.status =
      some MigrationStatus.completed ∧
    (example_s4.getMigration "job-1").map Migration.completed_at =
      some (some 2) :=
  cancel_sends_no_signals EngineState.init Reachable.init

/-- C6 (code evaluation): pause on a Running job sets Paused but sends no
interrupt signal — the `_processes` registry it consults is never populated
in any reachable state — and pause on a job in any other status fails
synchronously with the invalid-state error and changes nothing. -/
theorem pause_running_no_signal (s : EngineState) (migration_id : String)
    (m : Migration) (hr : Reachable s)
    (h : s.getMigration migration_id = some m) :
    (m.status = MigrationStatus.running →
      pause_migration s migration_id =
        (s.setMigration migration_id
          { m with status := MigrationStatus.paused }, Except.ok [])) ∧
    (¬ m.status = MigrationStatus.running →
      pause_migration s migration_id =
        (s, Except.error
          (EngineError.invalidState "Can only pause running migrations"))) := by
  have hp : s.processes = [] := hr.processes_nil
  constructor
  · intro hrun
    unfold pause_migration
    rw [h]
    dsimp only
    rw [if_pos hrun, hp]
    rfl
  · intro hnr
    unfold pause_migration
    rw [h]
    dsimp only
    rw [if_neg hnr]

theorem pause_running_no_signal_witness :
    example_s2.getMigration "job-1" = some example_running_migration ∧
    example_running_migration.status = MigrationStatus.running ∧
    pause_migration example_s2 "job-1" =
      (example_s2.setMigration "job-1"
        { example_running_migration with status := MigrationStatus.paused },
       Except.ok []) := by
  have r1 : Reachable example_s1 :=
    Reachable.step Reachable.init
      (Step.create EngineState.init "job-1" example_config)
  have r2 : Reachable example_s2 :=
    Reachable.step r1 (Step.start example_s1 0 example_cm 10 "job-1")
  exact ⟨by decide, by decide,
    (pause_running_no_signal example_s2 "job-1" example_running_migration r2
      (by decide)).1 (by decide)⟩

/-- C7: once the spawned process's streams close without an escaped decode
exception, exit code 0 finalizes the job as Completed, a nonzero exit code
finalizes it as Failed and — when no error was recorded before exit and no
error event arrived on stderr — synthesizes an error message carrying the
exit code; the completion timestamp is stamped on this terminal
transition. -/
theorem exit_code_finalization (cli_path : String) (now end_time : Int)
    (pid : Int) (stdout_lines stderr_lines : List LineDecode)
    (returncode : Int) (s : EngineState) (migration_id : String)
    (m : Migration)
    (h : s.getMigration migration_id = some m)
    (hout : LineDecode.nonObject ∉ stdout_lines)
    (herr : LineDecode.nonObject ∉ stderr_lines) :
    ∃ mf, (run_migration cli_path now end_time (SpawnResult.spawned pid)
        stdout_lines stderr_lines returncode s migration_id).getMigration
        migration_id = some mf ∧
      mf.completed_at = some end_time ∧
      (returncode = 0 → mf.status = MigrationStatus.completed) ∧
      (returncode ≠ 0 → mf.status = MigrationStatus.failed) ∧
      (returncode ≠ 0 → m.error = none →
        (∀ d, LineDecode.object d ∈ stderr_lines → d.type ≠ some "error") →
        mf.error = some ("CLI exited with code " ++ toString returncode)) := by
  have hem2 : (read_stream_loop read_error_line
      { m with cli_process_id := some pid } stderr_lines).2 = false :=
    read_stream_loop_snd_false read_error_line read_error_line_snd
      stderr_lines _ herr
  have hpm2 : (read_stream_loop (read_progress_line now)
      (read_stream_loop read_error_line { m with cli_process_id := some pid }
        stderr_lines).1 stdout_lines).2 = false :=
    read_stream_loop_snd_false (read_progress_line now)
      (read_progress_line_snd now) stdout_lines _ hout
  have hfin : run_final now end_time pid stdout_lines stderr_lines returncode m
      = { finalize_exit returncode (read_stream_loop (read_progress_line now)
            (read_stream_loop read_error_line
              { m with cli_process_id := some pid } stderr_lines).1
            stdout_lines).1 with completed_at := some end_time } := by
    unfold run_final
    dsimp only
    rw [hpm2, hem2]
    rfl
  have hrun : run_migration cli_path now end_time (SpawnResult.spawned pid)
      stdout_lines stderr_lines returncode s migration_id =
      (s.setMigration migration_id
        (run_final now end_time pid stdout_lines stderr_lines returncode
          m)).popProcess migration_id := by
    unfold run_migration
    rw [h]
  refine ⟨run_final now end_time pid stdout_lines stderr_lines returncode m,
    ?_, ?_, ?_, ?_, ?_⟩
  · rw [hrun]
    exact getMigration_setMigration_self s migration_id m _ h
  · rw [hfin]
  · intro h0
    rw [hfin]
    unfold finalize_exit
    rw [if_pos h0]
  · intro h0
    rw [hfin]
    unfold finalize_exit
    rw [if_neg h0]
    dsimp only
    split_ifs <;> rfl
  · intro h0 herrnone hnoerr
    have he1 : (read_stream_loop read_error_line
        { m with cli_process_id := some pid } stderr_lines).1.error = none := by
      rw [read_error_loop_error stderr_lines _ hnoerr]
      exact herrnone
    have he2 : (read_stream_loop (read_progress_line now)
        (read_stream_loop read_error_line
          { m with cli_process_id := some pid } stderr_lines).1
        stdout_lines).1.error = none := by
      rw [read_stream_loop_preserves (read_progress_line now) Migration.error
        (read_progress_line_error now) stdout_lines _]
      exact he1
    rw [hfin]
    unfold finalize_exit
    rw [if_neg h0]
    dsimp only
    rw [he2]
    rfl

theorem exit_code_finalization_witness :
    c3_state.getMigration "run-1" = some c3_running_migration ∧
    LineDecode.nonObject ∉ ([] : List LineDecode) ∧
    ∃ mf, (run_migration "/usr/local/bin/migrate-tool" 3 4
        (SpawnResult.spawned 42) [] [] 1 c3_state "run-1").getMigration
        "run-1" = some mf ∧
      mf.completed_at = some (4:Int) ∧
      ((1:Int) = 0 → mf.status = MigrationStatus.completed) ∧
      ((1:Int) ≠ 0 → mf.status = MigrationStatus.failed) ∧
      ((1:Int) ≠ 0 → c3_running_migration.error = none →
        (∀ d, LineDecode.object d ∈ ([] : List LineDecode) →
          d.type ≠ some "error") →
        mf.error = some ("CLI exited with code " ++ toString (1:Int))) :=
  ⟨by decide, by decide,
   exit_code_finalization "/usr/local/bin/migrate-tool" 3 4 42 [] [] 1
     c3_state "run-1" c3_running_migration (by decide) (by decide) (by decide)⟩

/-- C8: the argument list built for a job start is a function of the
non-secret connection fields only — replacing either password changes no
argument — and the credential environment holds exactly the two password
entries, looked up over the inherited environment by override. -/
theorem credentials_out_of_band (src : SourceConnection)
    (tgt : SnowflakeConnection) (m : Migration) (p1 p2 : String)
    (inherited : List (String × String)) (k : String) :
    buildArgs { src with password := p1 } { tgt with password := p2 } m =
      buildArgs src tgt m ∧
    (buildEnv src tgt).map Prod.fst =
      ["SNOWMIGRATE_SOURCE_PASSWORD", "SNOWMIGRATE_TARGET_PASSWORD"] ∧
    alookup (buildEnv src tgt) "SNOWMIGRATE_SOURCE_PASSWORD" =
      some src.password ∧
    alookup (buildEnv src tgt) "SNOWMIGRATE_TARGET_PASSWORD" =
      some tgt.password ∧
    alookup (process_env inherited src tgt) k =
      (if k = "SNOWMIGRATE_SOURCE_PASSWORD" then some src.password
       else if k = "SNOWMIGRATE_TARGET_PASSWORD" then some tgt.password
       else alookup inherited k) := by
  refine ⟨rfl, rfl, rfl, rfl, ?_⟩
  have hpe : process_env inherited src tgt =
      ainsert (ainsert inherited "SNOWMIGRATE_SOURCE_PASSWORD" src.password)
        "SNOWMIGRATE_TARGET_PASSWORD" tgt.password := rfl
  rw [hpe, alookup_ainsert, alookup_ainsert]
  by_cases h1 : k = "SNOWMIGRATE_SOURCE_PASSWORD"
  · by_cases h2 : k = "SNOWMIGRATE_TARGET_PASSWORD"
    · rw [h1] at h2
      exact absurd h2 (by decide)
    · simp [h1, h2]
  · by_cases h2 : k = "SNOWMIGRATE_TARGET_PASSWORD" <;> simp [h1, h2]

/-- C10: cancel_migration accepts a known job in any status — Queued with
no bound process, Running, or already terminal — and unconditionally sets
status Cancelled with a fresh completion timestamp; the only failure is the
not-found error for an unknown id. -/
theorem cancel_unconditional (now : Int) (exits_in_grace : Bool)
    (s : EngineState) (migration_id : String) :
    (∀ m, s.getMigration migration_id = some m →
      ∃ t sigs, cancel_migration now exits_in_grace s migration_id =
          (t, Except.ok sigs) ∧
        t.getMigration migration_id =
          some { m with status := MigrationStatus.cancelled,
                        completed_at := some now }) ∧
    (s.getMigration migration_id = none →
      cancel_migration now exits_in_grace s migration_id =
        (s, Except.error (EngineError.notFound migration_id))) := by
  constructor
  · intro m h
    refine ⟨s.setMigration migration_id
      { m with status := MigrationStatus.cancelled, completed_at := some now },
      if s.processes.contains migration_id then
        (if exits_in_grace then [ProcSignal.sigterm]
         else [ProcSignal.sigterm, ProcSignal.sigkill])
      else [], ?_, ?_⟩
    · unfold cancel_migration
      rw [h]
    · exact getMigration_setMigration_self s migration_id m _ h
  · intro h
    unfold cancel_migration
    rw [h]

theorem cancel_unconditional_witness :
    c1_state.getMigration "done-1" = some c1_completed_migration ∧
    (∃ t sigs, cancel_migration 99 true c1_state "done-1" =
        (t, Except.ok sigs) ∧
      t.getMigration "done-1" =
        some { c1_completed_migration with
                 status := MigrationStatus.cancelled,
                 completed_at := some (99:Int) }) :=
  ⟨by decide,
   (cancel_unconditional 99 true c1_state "done-1").1 c1_completed_migration
     (by decide)⟩

end SnowMigrate
